import Mathlib

/-!
Shallow embedding of the two widget components of the repository
(frontend src components ChatInterface.jsx and RequirementsPanel.jsx).
Each React component is embedded as a state record plus pure transition
functions for its event handlers; the completion of a fetch call is
passed to the handler as an explicit parameter, so one handler call
models the whole submit-to-completion lifecycle of one user action.
Clock readings (Date.now in the source) are explicit Nat parameters.
-/

namespace ForteAgent

/-- JS truthiness of a nullable string value as it appears in the source
guards (if (!requirements), if (!documentContent)): null or undefined and
the empty string are falsy, every other string is truthy. -/
def jsTruthyOpt : Option String → Bool
  | none => false
  | some s => s ≠ ""

/-- JS disjunction a || b for a nullable string a, as used in
data.error || fallback: the fallback is taken when a is absent or empty. -/
def jsOr (a : Option String) (b : String) : String :=
  match a with
  | some s => if s = "" then b else s
  | none => b

/-- JS disjunction a || b for plain strings, as used in
projectName || default: b is taken exactly when a is empty. -/
def jsOrStr (a b : String) : String :=
  if a = "" then b else a

/-- JS String.prototype.trim as an executable function on the character
list: strip leading and trailing whitespace. -/
def jsTrim (s : String) : String :=
  ⟨((s.data.dropWhile Char.isWhitespace).reverse.dropWhile
      Char.isWhitespace).reverse⟩

/-- Outcome of one fetch call as observed by the handler that awaited it:
either an exception was thrown before a parsed body was available
(transport error, or response.json() failing to parse), or a parsed JSON
body together with the boolean response.ok (2xx status). -/
inductive FetchResult (β : Type) where
  | thrown (errMessage : String)
  | reply (ok : Bool) (body : β)
deriving DecidableEq

/-! ## Conversation Widget: ChatInterface.jsx -/

/-- One transcript entry of ChatInterface.jsx: the object literals pushed
into the messages array carry an id, a type tag (user or agent), text
content, and optionally an attached file name and a base64 image. -/
structure Message where
  id : Nat
  type : String
  content : String
  fileName : Option String := none
  image : Option String := none
deriving DecidableEq

/-- Parsed JSON body of a successful chat reply: data.response and the
optional data.image. -/
structure ChatBody where
  response : String
  image : Option String := none
deriving DecidableEq

/-- Local state of the ChatInterface component: the messages transcript,
the pending input text, the pending attached file (its name), and the
in-flight flag isLoading. -/
structure ChatState where
  messages : List Message
  inputValue : String
  selectedFile : Option String
  isLoading : Bool
deriving DecidableEq

/-- The seed welcome message of the transcript (initial useState value). -/
def welcomeMessage : Message :=
  { id := 1
    type := "agent"
    content := "Hello! I am your Business Analytics Agent. How can I assist you with analyzing your business processes today?" }

/-- Initial component state: transcript seeded with the welcome message,
empty input, no file, not loading. -/
def initialChatState : ChatState :=
  { messages := [welcomeMessage]
    inputValue := ""
    selectedFile := none
    isLoading := false }

/-- The fixed fallback notice appended by the catch block of
handleSendMessage. -/
def chatFallbackText : String :=
  "I apologize, but I\x27m having trouble connecting to the analytics engine. Please ensure the backend server is running."

/-- The agent Message built in the catch block of handleSendMessage at
clock reading tResp (its id is Date.now() + 1). -/
def chatErrorMessage (tResp : Nat) : Message :=
  { id := tResp + 1
    type := "agent"
    content := chatFallbackText }

/-- handleSendMessage of ChatInterface.jsx, from pressing submit through
the completion of the fetch. tSubmit and tResp are the Date.now()
readings at submit time and at completion time. The early return fires
when the trimmed input is empty and no file is attached; otherwise the
user message is appended, and then exactly one agent message: the reply
message when response.ok held and the body parsed, and the fixed
fallback message when the fetch threw or response.ok was false. The
try/finally always clears isLoading; the catch swallows the error, so the
handler is total (no exception escapes), which the Lean function models
by construction. -/
def handleSendMessage (s : ChatState) (tSubmit tResp : Nat)
    (outcome : FetchResult ChatBody) : ChatState :=
  if jsTrim s.inputValue = "" ∧ s.selectedFile = none then s
  else
    let userMessage : Message :=
      { id := tSubmit
        type := "user"
        content := s.inputValue
        fileName := s.selectedFile }
    let s1 : ChatState :=
      { s with messages := s.messages ++ [userMessage]
               inputValue := ""
               selectedFile := none
               isLoading := true }
    let s2 : ChatState :=
      match outcome with
      | .reply true body =>
          { s1 with messages := s1.messages ++
              [{ id := tResp + 1
                 type := "agent"
                 content := body.response
                 image := body.image }] }
      | .reply false _ =>
          { s1 with messages := s1.messages ++ [chatErrorMessage tResp] }
      | .thrown _ =>
          { s1 with messages := s1.messages ++ [chatErrorMessage tResp] }
    { s2 with isLoading := false }

/-- One scripted submission: the text typed into the input, the attached
file if any, the two clock readings, and the fetch outcome. -/
structure Submission where
  input : String
  file : Option String
  tSubmit : Nat
  tResp : Nat
  outcome : FetchResult ChatBody
deriving DecidableEq

/-- The submit guard of handleSendMessage, evaluated on a scripted
submission: true when the submission is not rejected by the early
return. -/
def chatGuard (sub : Submission) : Bool :=
  !(jsTrim sub.input == "" && sub.file == none)

/-- Whether a fetch outcome is a success for the chat handler:
response.ok held and a body was parsed. -/
def FetchResult.isOkReply : FetchResult β → Bool
  | .reply true _ => true
  | _ => false

/-- Whether a fetch outcome lands in the catch block of the chat handler:
the fetch threw, or response.ok was false. -/
def FetchResult.chatFails : FetchResult ChatBody → Bool
  | .thrown _ => true
  | .reply ok _ => !ok

/-- Type the submission text and file into the component state, then run
handleSendMessage to completion. -/
def submitOne (s : ChatState) (sub : Submission) : ChatState :=
  handleSendMessage
    { s with inputValue := sub.input, selectedFile := sub.file }
    sub.tSubmit sub.tResp sub.outcome

/-- Run a sequence of submissions, one at a time (only one request is in
flight at a time, so the sequential fold is the only possible order). -/
def runChat (s : ChatState) (subs : List Submission) : ChatState :=
  subs.foldl submitOne s

/-- The user Message appended by a scripted submission. -/
def submittedUserMessage (sub : Submission) : Message :=
  { id := sub.tSubmit
    type := "user"
    content := sub.input
    fileName := sub.file }

/-- The agent Message appended on completion of a scripted submission:
built from the body on success, the fixed fallback message otherwise. -/
def responseMessage (sub : Submission) : Message :=
  match sub.outcome with
  | .reply true body =>
      { id := sub.tResp + 1
        type := "agent"
        content := body.response
        image := body.image }
  | _ => chatErrorMessage sub.tResp

/-- The two messages appended by one guarded submission. -/
def submissionPair (sub : Submission) : List Message :=
  [submittedUserMessage sub, responseMessage sub]

/-- Strict monotonicity of the ids along the transcript: every message
id is strictly greater than the id of the message before it (and hence
greater than all earlier ids). -/
def idsStrictlyIncreasing : List Message → Bool
  | [] => true
  | [_] => true
  | a :: b :: rest =>
      decide (a.id < b.id) && idsStrictlyIncreasing (b :: rest)

/-- Spacing condition on the clock readings of a scripted run, starting
from a lower bound t on the next reading: each submission reads the
clock no earlier than t at submit, no earlier than that at completion,
and the next submission starts at least 2 ticks after this completion. -/
def wellSpaced : Nat → List Submission → Bool
  | _, [] => true
  | t, sub :: rest =>
      decide (t ≤ sub.tSubmit) && decide (sub.tSubmit ≤ sub.tResp) &&
        wellSpaced (sub.tResp + 2) rest

/-! ## Document Generation Widget: RequirementsPanel.jsx -/

/-- The three artifact slots of the panel (the useState artifacts
record). The artifact payloads returned by the backend are opaque to the
component, so they are embedded as strings (their serialized JSON). -/
structure Artifacts where
  useCases : Option String := none
  userStories : Option String := none
  processDiagram : Option String := none
deriving DecidableEq

/-- Local state of the RequirementsPanel component: project name input,
in-flight flag isGenerating, the stored requirements payload and
rendered document text (opaque, embedded as strings), the error notice,
the active tab, and the artifact slots. -/
structure PanelState where
  projectName : String
  isGenerating : Bool
  requirements : Option String
  documentContent : Option String
  error : Option String
  activeTab : String
  artifacts : Artifacts
deriving DecidableEq

/-- Initial component state (the useState initial values). -/
def initialPanelState : PanelState :=
  { projectName := ""
    isGenerating := false
    requirements := none
    documentContent := none
    error := none
    activeTab := "requirements"
    artifacts := {} }

/-- Parsed JSON body of a generate-requirements reply: success flag and
the optional requirements, document and error fields. -/
structure GenBody where
  success : Bool
  requirements : Option String := none
  document : Option String := none
  error : Option String := none
deriving DecidableEq

/-- Parsed JSON body of a generate-artifacts reply: success flag and the
optional artifacts list, diagram text and error fields. -/
structure ArtBody where
  success : Bool
  artifacts : Option String := none
  diagram : Option String := none
  error : Option String := none
deriving DecidableEq

/-- Parsed JSON body of a publish-to-confluence reply. -/
structure PubBody where
  success : Bool
  page_url : Option String := none
  error : Option String := none
deriving DecidableEq

/-- Result of running one panel operation to completion: the final
component state, and whether the fetch call was reached (false exactly
when the local validation guard returned early). -/
structure OpResult where
  state : PanelState
  fetchIssued : Bool
deriving DecidableEq

/-- generateRequirements of RequirementsPanel.jsx. The guard
(!projectName.trim()) returns early with a validation notice and no
fetch. Otherwise isGenerating is set and the error cleared, the request
is issued, and on completion: a body with truthy success stores
data.requirements and data.document; a body with falsy success sets the
error to data.error || the generic generation message; a thrown fetch
(transport error or unparseable body) sets the fixed connection
message. The finally block always clears isGenerating. The response
status is never read. -/
def generateRequirements (s : PanelState) (net : FetchResult GenBody) :
    OpResult :=
  if jsTrim s.projectName = "" then
    { state := { s with error := some "Пожалуйста, введите название проекта" }
      fetchIssued := false }
  else
    let s1 : PanelState := { s with isGenerating := true, error := none }
    let s2 : PanelState :=
      match net with
      | .reply _ body =>
          if body.success then
            { s1 with requirements := body.requirements
                      documentContent := body.document }
          else
            { s1 with error := some (jsOr body.error "Ошибка генерации требований") }
      | .thrown _ =>
          { s1 with error := some "Ошибка подключения к серверу" }
    { state := { s2 with isGenerating := false }, fetchIssued := true }

/-- generateArtifact of RequirementsPanel.jsx. The guard (!requirements)
returns early with a validation notice and no fetch. On a body with
truthy success the slot selected by the artifactType string is
overwritten: use_cases and user_stories store data.artifacts,
process_diagram stores data.diagram; any other string stores nothing.
Failure handling mirrors generateRequirements. -/
def generateArtifact (s : PanelState) (artifactType : String)
    (net : FetchResult ArtBody) : OpResult :=
  if jsTruthyOpt s.requirements = false then
    { state := { s with error := some "Сначала сгенерируйте требования" }
      fetchIssued := false }
  else
    let s1 : PanelState := { s with isGenerating := true, error := none }
    let s2 : PanelState :=
      match net with
      | .reply _ body =>
          if body.success then
            if artifactType = "use_cases" then
              { s1 with artifacts :=
                  { s1.artifacts with useCases := body.artifacts } }
            else if artifactType = "user_stories" then
              { s1 with artifacts :=
                  { s1.artifacts with userStories := body.artifacts } }
            else if artifactType = "process_diagram" then
              { s1 with artifacts :=
                  { s1.artifacts with processDiagram := body.diagram } }
            else s1
          else
            { s1 with error := some (jsOr body.error "Ошибка генерации артефакта") }
      | .thrown _ =>
          { s1 with error := some "Ошибка подключения к серверу" }
    { state := { s2 with isGenerating := false }, fetchIssued := true }

/-- The file produced by downloadDocument: the Blob content and MIME
type together with the anchor download name. -/
structure DownloadFile where
  name : String
  mime : String
  content : String
deriving DecidableEq

/-- downloadDocument of RequirementsPanel.jsx: a pure client-side
export. The guard (!documentContent) makes it a no-op; otherwise it
builds one text/markdown file from the document text, named
projectName || requirements, with extension .md. It touches no component
state and issues no network request, which the Lean embedding reflects
by returning only the optional file. -/
def downloadDocument (s : PanelState) : Option DownloadFile :=
  if jsTruthyOpt s.documentContent = false then none
  else
    some { name := jsOrStr s.projectName "requirements" ++ ".md"
           mime := "text/markdown"
           content := s.documentContent.getD "" }

/-- publishToConfluence of RequirementsPanel.jsx. The guard
(!documentContent) returns early with a validation notice and no fetch.
On a body with truthy success the component only shows a confirm dialog
and possibly opens the returned page URL (no state change); on falsy
success it sets data.error || the generic publication message; the
catch block sets the connection message with err.message interpolated
into it. The finally block always clears isGenerating. -/
def publishToConfluence (s : PanelState) (net : FetchResult PubBody) :
    OpResult :=
  if jsTruthyOpt s.documentContent = false then
    { state := { s with error := some "Сначала сгенерируйте документ" }
      fetchIssued := false }
  else
    let s1 : PanelState := { s with isGenerating := true, error := none }
    let s2 : PanelState :=
      match net with
      | .reply _ body =>
          if body.success then s1
          else
            { s1 with error := some (jsOr body.error "Ошибка публикации в Confluence") }
      | .thrown m =>
          { s1 with error := some ("Ошибка подключения к серверу: " ++ m) }
    { state := { s2 with isGenerating := false }, fetchIssued := true }

/-- Whether a generate-requirements outcome is a failing run: the fetch
threw, or the body carried a falsy success flag. -/
def genReqFails : FetchResult GenBody → Bool
  | .thrown _ => true
  | .reply _ body => !body.success

/-- The error notice generateRequirements surfaces on a failing run. -/
def genReqFailureMessage : FetchResult GenBody → String
  | .thrown _ => "Ошибка подключения к серверу"
  | .reply _ body => jsOr body.error "Ошибка генерации требований"

/-- A concrete Ready panel state used to instantiate the theorems: a
project name, a requirements payload and a document text are present. -/
def readyPanelState : PanelState :=
  { initialPanelState with
      projectName := "P"
      requirements := some "req"
      documentContent := some "# Doc" }


theorem handleSendMessage_messages (s : ChatState) (tSubmit tResp : Nat)
    (outcome : FetchResult ChatBody)
    (h : ¬ (jsTrim s.inputValue = "" ∧ s.selectedFile = none)) :
    (handleSendMessage s tSubmit tResp outcome).messages =
      s.messages ++
        [{ id := tSubmit, type := "user", content := s.inputValue,
           fileName := s.selectedFile },
         match outcome with
         | .reply true body =>
             { id := tResp + 1, type := "agent", content := body.response,
               image := body.image }
         | _ => chatErrorMessage tResp] := by
  cases outcome with
  | thrown m => simp [handleSendMessage, h]
  | reply ok body =>
      cases ok <;> simp [handleSendMessage, h]

theorem submitOne_messages (s : ChatState) (sub : Submission)
    (h : chatGuard sub = true) :
    (submitOne s sub).messages = s.messages ++ submissionPair sub := by
  have h' : ¬ (jsTrim sub.input = "" ∧ sub.file = none) := by
    intro hc
    rw [chatGuard] at h
    simp [hc.1, hc.2] at h
  cases houtcome : sub.outcome with
  | thrown m =>
      simp [submitOne, handleSendMessage, h', submissionPair,
        submittedUserMessage, responseMessage, houtcome]
  | reply ok body =>
      cases ok <;>
        simp [submitOne, handleSendMessage, h', submissionPair,
          submittedUserMessage, responseMessage, houtcome]

theorem runChat_messages (subs : List Submission) (s : ChatState)
    (hval : ∀ sub ∈ subs, chatGuard sub = true) :
    (runChat s subs).messages =
      s.messages ++ (subs.map submissionPair).flatten := by
  induction subs generalizing s with
  | nil => simp [runChat]
  | cons a l ih =>
      have ha : chatGuard a = true := hval a (List.mem_cons_self a l)
      have hl : ∀ sub ∈ l, chatGuard sub = true := fun sub hs =>
        hval sub (List.mem_cons_of_mem a hs)
      have hstep : runChat s (a :: l) = runChat (submitOne s a) l := rfl
      rw [hstep, ih _ hl, submitOne_messages s a ha]
      simp [List.append_assoc]

theorem submissionPairs_length (subs : List Submission) :
    ((subs.map submissionPair).flatten).length = 2 * subs.length := by
  induction subs with
  | nil => simp
  | cons a l ih =>
      simp [submissionPair, ih]
      ring

/-- C1: in the Conversation Widget, after any sequence of guarded
submissions whose responses all succeed, the transcript is exactly the
seed welcome message followed by, for each submission in order, its user
Message and then its agent Message; in particular its length is
1 + 2N and the roles strictly alternate user, agent after the seed, with
no interleaving across submissions. -/
theorem C1_transcript_after_success_run (subs : List Submission)
    (hval : ∀ sub ∈ subs, chatGuard sub = true)
    (_hsucc : ∀ sub ∈ subs, sub.outcome.isOkReply = true) :
    (runChat initialChatState subs).messages =
        welcomeMessage :: (subs.map submissionPair).flatten ∧
      (runChat initialChatState subs).messages.length = 1 + 2 * subs.length ∧
      ∀ sub ∈ subs, (submittedUserMessage sub).type = "user" ∧
        (responseMessage sub).type = "agent" := by
  have hmsg := runChat_messages subs initialChatState hval
  refine ⟨?_, ?_, ?_⟩
  · simpa [initialChatState] using hmsg
  · rw [hmsg, List.length_append, submissionPairs_length]
    simp [initialChatState]
  · intro sub hs
    refine ⟨rfl, ?_⟩
    cases houtcome : sub.outcome with
    | thrown m => simp [responseMessage, houtcome, chatErrorMessage]
    | reply ok body =>
        cases ok <;> simp [responseMessage, houtcome, chatErrorMessage]

/-- Concrete instance of C1: two successful submissions yield the seed
plus two alternating user and agent pairs. -/
theorem C1_transcript_after_success_run_witness :
    (runChat initialChatState
        [{ input := "Show Q1 revenue", file := none, tSubmit := 100,
           tResp := 120, outcome := .reply true { response := "Here" } },
         { input := "Thanks", file := some "data.xlsx", tSubmit := 200,
           tResp := 230, outcome := .reply true { response := "Done" } }]).messages.length
      = 1 + 2 * 2 :=
  (C1_transcript_after_success_run
    [{ input := "Show Q1 revenue", file := none, tSubmit := 100,
       tResp := 120, outcome := .reply true { response := "Here" } },
     { input := "Thanks", file := some "data.xlsx", tSubmit := 200,
       tResp := 230, outcome := .reply true { response := "Done" } }]
    (by decide) (by decide)).2.1

/-- C2: whenever the chat request fails (thrown transport error, or a
non-2xx status making the handler throw), exactly one agent Message is
appended after the user Message, and its content is the fixed fallback
notice. The catch block swallows the error and the embedded handler is
a total function, so no exception escapes the submit handler. -/
theorem C2_chat_failure_fallback (s : ChatState) (tSubmit tResp : Nat)
    (net : FetchResult ChatBody)
    (hguard : ¬ (jsTrim s.inputValue = "" ∧ s.selectedFile = none))
    (hfail : net.chatFails = true) :
    (handleSendMessage s tSubmit tResp net).messages =
      s.messages ++
        [{ id := tSubmit, type := "user", content := s.inputValue,
           fileName := s.selectedFile },
         chatErrorMessage tResp] ∧
      (chatErrorMessage tResp).type = "agent" ∧
      (chatErrorMessage tResp).content = chatFallbackText := by
  refine ⟨?_, rfl, rfl⟩
  cases net with
  | thrown m => simp [handleSendMessage, hguard]
  | reply ok body =>
      cases ok with
      | false => simp [handleSendMessage, hguard]
      | true => simp [FetchResult.chatFails] at hfail

/-- Concrete instance of C2: a transport failure on the first submission
appends the user message and then the single fallback agent message. -/
theorem C2_chat_failure_fallback_witness :
    (handleSendMessage { initialChatState with inputValue := "hello" }
        40 55 (.thrown "ECONNREFUSED")).messages =
      ({ initialChatState with inputValue := "hello" } : ChatState).messages ++
        [{ id := 40, type := "user", content := "hello", fileName := none },
         chatErrorMessage 55] :=
  (C2_chat_failure_fallback { initialChatState with inputValue := "hello" }
    40 55 (.thrown "ECONNREFUSED") (by decide) rfl).1

/-- C3: a failing run of generateRequirements (reply body with a falsy
success flag, or a thrown fetch) leaves the stored requirements payload
and document text unchanged, so starting from Idle both remain absent,
and surfaces the error notice: the body error field when that field is
present and non-empty (JS truthiness of data.error), otherwise the
generic fallback message. -/
theorem C3_generateRequirements_failure (s : PanelState)
    (net : FetchResult GenBody)
    (hrun : jsTrim s.projectName ≠ "")
    (hfail : genReqFails net = true) :
    (generateRequirements s net).state.requirements = s.requirements ∧
      (generateRequirements s net).state.documentContent = s.documentContent ∧
      (generateRequirements s net).state.error =
        some (genReqFailureMessage net) := by
  cases net with
  | thrown m => simp [generateRequirements, hrun, genReqFailureMessage]
  | reply ok body =>
      have hb : body.success = false := by
        simpa [genReqFails] using hfail
      simp [generateRequirements, hrun, hb, genReqFailureMessage]

/-- Concrete instance of C3: a backend-reported failure with an explicit
error field leaves Idle unchanged and surfaces that field. -/
theorem C3_generateRequirements_failure_witness :
    (generateRequirements
        { initialPanelState with projectName := "Loan Automation" }
        (.reply true { success := false, error := some "no session" })).state.requirements
        = ({ initialPanelState with projectName := "Loan Automation" } : PanelState).requirements ∧
      (generateRequirements
        { initialPanelState with projectName := "Loan Automation" }
        (.reply true { success := false, error := some "no session" })).state.error
        = some (genReqFailureMessage
            (.reply true { success := false, error := some "no session" })) :=
  ⟨(C3_generateRequirements_failure
      { initialPanelState with projectName := "Loan Automation" }
      (.reply true { success := false, error := some "no session" })
      (by decide) (by decide)).1,
   (C3_generateRequirements_failure
      { initialPanelState with projectName := "Loan Automation" }
      (.reply true { success := false, error := some "no session" })
      (by decide) (by decide)).2.2⟩

/-- C4: a successful generateArtifact writes the returned payload only
into the ArtifactSet slot matching the requested kind (use_cases and
user_stories store data.artifacts, process_diagram stores data.diagram)
and leaves the other two slots exactly as they were; a repeated request
for the same kind overwrites the same slot and again leaves the other
two unchanged. -/
theorem C4_artifact_slot_frame (s : PanelState) (ok ok2 : Bool)
    (body body2 : ArtBody)
    (hreq : jsTruthyOpt s.requirements = true)
    (h1 : body.success = true) (h2 : body2.success = true) :
    (generateArtifact s "use_cases" (.reply ok body)).state.artifacts =
        { s.artifacts with useCases := body.artifacts } ∧
      (generateArtifact s "user_stories" (.reply ok body)).state.artifacts =
        { s.artifacts with userStories := body.artifacts } ∧
      (generateArtifact s "process_diagram" (.reply ok body)).state.artifacts =
        { s.artifacts with processDiagram := body.diagram } ∧
      (generateArtifact
          (generateArtifact s "use_cases" (.reply ok body)).state
          "use_cases" (.reply ok2 body2)).state.artifacts =
        { s.artifacts with useCases := body2.artifacts } := by
  have hg : ¬ (jsTruthyOpt s.requirements = false) := by simp [hreq]
  refine ⟨?_, ?_, ?_, ?_⟩ <;>
    simp [generateArtifact, hg, hreq, h1, h2]

/-- Concrete instance of C4: generating use cases twice in a row
overwrites only the useCases slot, leaving stories and diagram as they
were. -/
theorem C4_artifact_slot_frame_witness :
    (generateArtifact
        (generateArtifact
          { initialPanelState with requirements := some "req-payload" }
          "use_cases"
          (.reply true { success := true, artifacts := some "ucs-v1" })).state
        "use_cases"
        (.reply true { success := true, artifacts := some "ucs-v2" })).state.artifacts =
      { ({ initialPanelState with requirements := some "req-payload" } : PanelState).artifacts
          with useCases := some "ucs-v2" } :=
  (C4_artifact_slot_frame
    { initialPanelState with requirements := some "req-payload" }
    true true
    { success := true, artifacts := some "ucs-v1" }
    { success := true, artifacts := some "ucs-v2" }
    (by decide) rfl rfl).2.2.2

/-- C5: each Document Generation Widget operation invoked with its local
precondition unmet (generateRequirements with an empty or
whitespace-only project name, generateArtifact with no requirements
payload, publishToConfluence with no document text) synchronously sets
its validation notice, issues no fetch, and changes no other component
state. -/
theorem C5_local_validation (s : PanelState) (netG : FetchResult GenBody)
    (netA : FetchResult ArtBody) (netP : FetchResult PubBody)
    (artifactType : String) :
    (jsTrim s.projectName = "" →
      generateRequirements s netG =
        { state := { s with error := some "Пожалуйста, введите название проекта" }
          fetchIssued := false }) ∧
      (jsTruthyOpt s.requirements = false →
        generateArtifact s artifactType netA =
          { state := { s with error := some "Сначала сгенерируйте требования" }
            fetchIssued := false }) ∧
      (jsTruthyOpt s.documentContent = false →
        publishToConfluence s netP =
          { state := { s with error := some "Сначала сгенерируйте документ" }
            fetchIssued := false }) := by
  refine ⟨fun h => ?_, fun h => ?_, fun h => ?_⟩ <;>
    simp [generateRequirements, generateArtifact, publishToConfluence, h]

/-- Concrete instance of C5: from the initial state (whitespace-only
name, no requirements, no document) all three operations fail locally
with their validation notices and do not reach the fetch. -/
theorem C5_local_validation_witness :
    generateRequirements { initialPanelState with projectName := "   " }
        (.thrown "never sent") =
      { state := { ({ initialPanelState with projectName := "   " } : PanelState)
          with error := some "Пожалуйста, введите название проекта" }
        fetchIssued := false } ∧
      generateArtifact initialPanelState "use_cases" (.thrown "never sent") =
        { state := { initialPanelState with error := some "Сначала сгенерируйте требования" }
          fetchIssued := false } ∧
      publishToConfluence initialPanelState (.thrown "never sent") =
        { state := { initialPanelState with error := some "Сначала сгенерируйте документ" }
          fetchIssued := false } :=
  ⟨(C5_local_validation { initialPanelState with projectName := "   " }
      (.thrown "never sent") (.thrown "never sent") (.thrown "never sent")
      "use_cases").1 (by decide),
   (C5_local_validation initialPanelState
      (.thrown "never sent") (.thrown "never sent") (.thrown "never sent")
      "use_cases").2.1 rfl,
   (C5_local_validation initialPanelState
      (.thrown "never sent") (.thrown "never sent") (.thrown "never sent")
      "use_cases").2.2 rfl⟩

/-- C6: downloadDocument is a no-op (it produces no file, touches no
state, and issues no request, the embedding being a pure function into
an optional file) whenever the document text is absent in the JS sense
(null or empty, the guard !documentContent); when a non-empty document
text is present it produces exactly one text/markdown file whose name is
the project name followed by .md, with requirements.md when the project
name is empty (projectName || default). -/
theorem C6_downloadDocument_spec (s : PanelState) :
    (jsTruthyOpt s.documentContent = false → downloadDocument s = none) ∧
      ∀ d, s.documentContent = some d → d ≠ "" →
        downloadDocument s =
          some { name := jsOrStr s.projectName "requirements" ++ ".md"
                 mime := "text/markdown"
                 content := d } := by
  constructor
  · intro h
    simp [downloadDocument, h]
  · intro d hd hne
    simp [downloadDocument, jsTruthyOpt, hd, hne]

/-- Concrete instance of C6: with no document generated the operation is
a no-op, and with a document and an empty project name it produces the
single file requirements.md. -/
theorem C6_downloadDocument_spec_witness :
    downloadDocument initialPanelState = none ∧
      downloadDocument { initialPanelState with documentContent := some "# Req" } =
        some { name := jsOrStr
                 ({ initialPanelState with documentContent := some "# Req" } : PanelState).projectName
                 "requirements" ++ ".md"
               mime := "text/markdown"
               content := "# Req" } :=
  ⟨(C6_downloadDocument_spec initialPanelState).1 rfl,
   (C6_downloadDocument_spec
      { initialPanelState with documentContent := some "# Req" }).2
      "# Req" rfl (by decide)⟩

/-- C7 as stated is false at publishToConfluence: its catch block
interpolates err.message into the surfaced notice, so two transport
failures with different underlying messages surface different notices
instead of one fixed generic message. -/
theorem C7_counterexample :
    (publishToConfluence
        { initialPanelState with documentContent := some "# Doc" }
        (.thrown "fetch failed")).state.error ≠
      (publishToConfluence
        { initialPanelState with documentContent := some "# Doc" }
        (.thrown "timeout")).state.error := by
  decide

/-- C7 amended: on a transport error the chat submit, generateRequirements
and generateArtifact surface fixed generic connectivity notices that do
not depend on the underlying error message (which is only logged), but
publishToConfluence surfaces the generic connectivity prefix with
err.message appended, thereby incorporating the underlying error. -/
theorem C7_transport_error_notices (sc : ChatState) (s : PanelState)
    (tSubmit tResp : Nat) (msg : String) (artifactType : String)
    (hc : ¬ (jsTrim sc.inputValue = "" ∧ sc.selectedFile = none))
    (hg : jsTrim s.projectName ≠ "")
    (ha : jsTruthyOpt s.requirements = true)
    (hp : jsTruthyOpt s.documentContent = true) :
    (handleSendMessage sc tSubmit tResp (.thrown msg)).messages =
        sc.messages ++
          [{ id := tSubmit, type := "user", content := sc.inputValue,
             fileName := sc.selectedFile },
           chatErrorMessage tResp] ∧
      (generateRequirements s (.thrown msg)).state.error =
        some "Ошибка подключения к серверу" ∧
      (generateArtifact s artifactType (.thrown msg)).state.error =
        some "Ошибка подключения к серверу" ∧
      (publishToConfluence s (.thrown msg)).state.error =
        some ("Ошибка подключения к серверу: " ++ msg) := by
  have ha' : ¬ (jsTruthyOpt s.requirements = false) := by simp [ha]
  have hp' : ¬ (jsTruthyOpt s.documentContent = false) := by simp [hp]
  refine ⟨?_, ?_, ?_, ?_⟩
  · simp [handleSendMessage, hc]
  · simp [generateRequirements, hg]
  · simp [generateArtifact, ha']
  · simp [publishToConfluence, hp']

/-- Concrete instance of the amended C7: for one concrete transport
error, generateRequirements surfaces the fixed connectivity notice and
publishToConfluence surfaces the prefixed underlying message. -/
theorem C7_transport_error_notices_witness :
    (generateRequirements readyPanelState (.thrown "boom")).state.error =
        some "Ошибка подключения к серверу" ∧
      (publishToConfluence readyPanelState (.thrown "boom")).state.error =
        some ("Ошибка подключения к серверу: " ++ "boom") :=
  ⟨(C7_transport_error_notices
      { initialChatState with inputValue := "q" } readyPanelState
      10 11 "boom" "use_cases"
      (by decide) (by decide) (by decide) (by decide)).2.1,
   (C7_transport_error_notices
      { initialChatState with inputValue := "q" } readyPanelState
      10 11 "boom" "use_cases"
      (by decide) (by decide) (by decide) (by decide)).2.2.2⟩

/-- C8 as stated is false: message ids come from Date.now() readings, so
a submission whose clock reading coincides with, or is within one tick
of, the previous completion reading repeats an id. Here the four clock
readings 1000 < 1001 < 1002 < 1003 strictly increase, yet the second
user message carries id 1002, equal to the id of the preceding agent
message (1001 + 1), so the transcript ids are not strictly increasing. -/
theorem C8_counterexample :
    idsStrictlyIncreasing
        (runChat initialChatState
          [{ input := "hi", file := none, tSubmit := 1000, tResp := 1001,
             outcome := .reply true { response := "ok" } },
           { input := "again", file := none, tSubmit := 1002, tResp := 1003,
             outcome := .reply true { response := "ok2" } }]).messages
      = false := by
  decide

theorem responseMessage_id (sub : Submission) :
    (responseMessage sub).id = sub.tResp + 1 := by
  cases houtcome : sub.outcome with
  | thrown m => simp [responseMessage, houtcome, chatErrorMessage]
  | reply ok body =>
      cases ok <;> simp [responseMessage, houtcome, chatErrorMessage]

theorem idsStrictlyIncreasing_iff_chain :
    ∀ msgs : List Message,
      idsStrictlyIncreasing msgs = true ↔
        List.Chain' (fun a b : Message => a.id < b.id) msgs
  | [] => by simp [idsStrictlyIncreasing]
  | [a] => by simp [idsStrictlyIncreasing]
  | a :: b :: rest => by
      rw [idsStrictlyIncreasing, Bool.and_eq_true, decide_eq_true_eq,
        List.chain'_cons, idsStrictlyIncreasing_iff_chain (b :: rest)]

theorem runChat_idsStrictlyIncreasing (subs : List Submission)
    (s : ChatState) (t : Nat) (hws : wellSpaced t subs = true)
    (hval : ∀ sub ∈ subs, chatGuard sub = true)
    (hmono : idsStrictlyIncreasing s.messages = true)
    (hbound : ∀ m ∈ s.messages, m.id < t) :
    idsStrictlyIncreasing (runChat s subs).messages = true := by
  induction subs generalizing s t with
  | nil => simpa [runChat] using hmono
  | cons a l ih =>
      obtain ⟨h1, h2, h3⟩ :
          t ≤ a.tSubmit ∧ a.tSubmit ≤ a.tResp ∧
            wellSpaced (a.tResp + 2) l = true := by
        simpa [wellSpaced, Bool.and_eq_true, decide_eq_true_eq,
          and_assoc] using hws
      have ha : chatGuard a = true := hval a (List.mem_cons_self a l)
      have hl : ∀ sub ∈ l, chatGuard sub = true := fun sub hs =>
        hval sub (List.mem_cons_of_mem a hs)
      have hmsg := submitOne_messages s a ha
      have hstep : runChat s (a :: l) = runChat (submitOne s a) l := rfl
      rw [hstep]
      apply ih (submitOne s a) (a.tResp + 2) h3 hl
      · rw [idsStrictlyIncreasing_iff_chain, hmsg, List.chain'_append]
        rw [idsStrictlyIncreasing_iff_chain] at hmono
        refine ⟨hmono, ?_, ?_⟩
        · simp [submissionPair, List.chain'_cons, submittedUserMessage,
            responseMessage_id]
          omega
        · intro x hx y hy
          have hxmem : x ∈ s.messages := by
            obtain ⟨hne, hxl⟩ := List.mem_getLast?_eq_getLast hx
            exact hxl ▸ List.getLast_mem hne
          have hxlt := hbound x hxmem
          have hy' : submittedUserMessage a = y := by
            simpa [submissionPair] using hy
          rw [← hy']
          simp [submittedUserMessage]
          omega
      · intro m hm
        rw [hmsg] at hm
        rcases List.mem_append.1 hm with hml | hmr
        · have := hbound m hml
          omega
        · simp [submissionPair] at hmr
          rcases hmr with hmu | hmv

          · rw [hmu]
            simp [submittedUserMessage]
            omega
          · rw [hmv, responseMessage_id]
            omega

/-- C8 amended: message ids (Date.now readings, with the agent message
at reading plus one) are strictly increasing along the transcript for
every sequence of guarded submissions and outcomes, provided the clock
readings are spaced: the first submit reading is at least 2 (above the
seed id 1), each completion reads no earlier than its submit, and each
next submit reads at least 2 ticks after the previous completion.
Without that spacing the property fails (see the counterexample). -/
theorem C8_ids_strictly_increasing_spaced (subs : List Submission)
    (hws : wellSpaced 2 subs = true)
    (hval : ∀ sub ∈ subs, chatGuard sub = true) :
    idsStrictlyIncreasing (runChat initialChatState subs).messages = true :=
  runChat_idsStrictlyIncreasing subs initialChatState 2 hws hval
    (by simp [initialChatState, idsStrictlyIncreasing])
    (by
      intro m hm
      simp [initialChatState] at hm
      simp [hm, welcomeMessage])

/-- Concrete instance of the amended C8: two spaced submissions, the
second failing, yield strictly increasing ids 1, 10, 12, 14, 21. -/
theorem C8_ids_strictly_increasing_spaced_witness :
    idsStrictlyIncreasing
      (runChat initialChatState
        [{ input := "hi", file := none, tSubmit := 10, tResp := 11,
           outcome := .reply true { response := "ok" } },
         { input := "more", file := none, tSubmit := 13, tResp := 20,
           outcome := .thrown "down" }]).messages = true :=
  C8_ids_strictly_increasing_spaced
    [{ input := "hi", file := none, tSubmit := 10, tResp := 11,
       outcome := .reply true { response := "ok" } },
     { input := "more", file := none, tSubmit := 13, tResp := 20,
       outcome := .thrown "down" }]
    (by decide) (by decide)

/-- C9: for the three Document Generation Widget operations success is
decided solely by the success field of the parsed body; the HTTP status
(response.ok) is never inspected, so a non-2xx reply with a given body
yields exactly the same result as a 2xx reply with that body, in
particular a non-2xx reply whose body has success true stores its
payload exactly as on a 2xx success. -/
theorem C9_status_never_inspected (s : PanelState) (artifactType : String)
    (okA okB : Bool) (bg : GenBody) (ba : ArtBody) (bp : PubBody) :
    generateRequirements s (.reply okA bg) =
        generateRequirements s (.reply okB bg) ∧
      generateArtifact s artifactType (.reply okA ba) =
        generateArtifact s artifactType (.reply okB ba) ∧
      publishToConfluence s (.reply okA bp) =
        publishToConfluence s (.reply okB bp) :=
  ⟨rfl, rfl, rfl⟩

/-- C10: every outcome of publishToConfluence (success, backend-reported
failure, transport error, and also the local validation early return)
leaves the project name, the requirements payload, the document text,
the three artifact slots and the active tab unchanged; only isGenerating
and the error notice are mutated. -/
theorem C10_publish_frame (s : PanelState) (net : FetchResult PubBody) :
    (publishToConfluence s net).state.projectName = s.projectName ∧
      (publishToConfluence s net).state.requirements = s.requirements ∧
      (publishToConfluence s net).state.documentContent = s.documentContent ∧
      (publishToConfluence s net).state.artifacts = s.artifacts ∧
      (publishToConfluence s net).state.activeTab = s.activeTab := by
  by_cases hg : jsTruthyOpt s.documentContent = false
  · simp [publishToConfluence, hg]
  · cases net with
    | thrown m => simp [publishToConfluence, hg]
    | reply ok body =>
        by_cases hb : body.success <;> simp [publishToConfluence, hg, hb]

end ForteAgent
